import Mathlib

/-!
Verification of the Semana calendar core: a shallow embedding of the
repository's Rust sources (crates/calendar/src/date.rs, lib.rs, obtain.rs,
render.rs) in Lean 4, together with proofs and refutations of the spec's
claims about date arithmetic, event classification, clash/lane resolution
and geometry.

Machine integers (u8/u16/i32/u32) are modelled by `Nat`/`Int`; all claims
quantify only over inputs on which the Rust arithmetic neither overflows
nor underflows, so the translation is exact there.  A Rust `panic!`/
`assert!` is modelled by returning `none` from an `Option`-valued
embedding.
-/

set_option maxHeartbeats 1000000

namespace Semana

/-- `Date` from crates/calendar/src/date.rs (the same struct appears in
crates/calendar/src/lib.rs): `year: u16`, `month: u8` (1..12),
`day: u8` (1..31). -/
structure Date where
  year : Nat
  month : Nat
  day : Nat
deriving DecidableEq, Repr

/-- `Date::is_leap_year` (date.rs line 318; lib.rs line 228):
`year % 4 == 0 && (year % 100 != 0 || year % 400 == 0)`. -/
def Date.is_leap_year (year : Nat) : Bool :=
  year % 4 == 0 && (year % 100 != 0 || year % 400 == 0)

/-- `Date::month_day_count` (date.rs line 256; lib.rs line 200). -/
def Date.month_day_count (year : Nat) (month : Nat) : Nat :=
  if month = 2 then
    if Date.is_leap_year year then 29 else 28
  else if month = 4 ∨ month = 6 ∨ month = 9 ∨ month = 11 then 30
  else 31

/-- Validity of a `Date`, as enforced by `Date::try_new` (date.rs line 300):
positive year, month in 1..12, day in 1..month_day_count. -/
def Date.Valid (d : Date) : Prop :=
  1 ≤ d.year ∧ 1 ≤ d.month ∧ d.month ≤ 12 ∧ 1 ≤ d.day ∧
    d.day ≤ Date.month_day_count d.year d.month

instance (d : Date) : Decidable d.Valid := by
  unfold Date.Valid; infer_instance

/-- `increment_date` (date.rs lines 9-27; an identical copy is in lib.rs
lines 76-94). -/
def increment_date (date : Date) : Date :=
  if date.day + 1 > Date.month_day_count date.year date.month then
    if date.month + 1 = 13 then ⟨date.year + 1, 1, 1⟩
    else ⟨date.year, date.month + 1, 1⟩
  else ⟨date.year, date.month, date.day + 1⟩

namespace eafs

/-- `eafs::calculate_rata_die_from_gregorian_calendar` (date.rs lines
387-403).  All intermediate values of the Rust i32 computation are
non-negative for valid dates, so plain `Nat` arithmetic (with truncating
subtraction) coincides with the source exactly there. -/
def calculate_rata_die_from_gregorian_calendar (date : Date) : Nat :=
  let j : Nat := if date.month ≤ 2 then 1 else 0
  let y : Nat := date.year - j
  let m : Nat := date.month + 12 * j
  let d : Nat := date.day - 1
  let c : Nat := y / 100
  let ystar : Nat := 1461 * y / 4 - c + c / 4
  let mstar : Nat := (153 * m - 457) / 5
  ystar + mstar + d

/-- `eafs::calculate_gregorian_date` (date.rs lines 344-385).  The rata die
argument is asserted non-negative in the source; the computation is pure
non-negative i32 affine arithmetic, modelled by `Nat`. -/
def calculate_gregorian_date (rata_die : Nat) : Date :=
  let n1 : Nat := 4 * rata_die + 3
  let n2 : Nat := 3 + 4 * (n1 % 146097 / 4)
  let n3 : Nat := 461 + 5 * (n2 % 1461 / 4)
  let m : Nat := n3 / 153
  let j : Nat := if 13 ≤ m then 1 else 0
  let year : Nat := j + (100 * (n1 / 146097) + n2 / 1461)
  let month : Nat := m - 12 * j
  let day : Nat := 1 + n3 % 153 / 5
  ⟨year, month, day⟩

end eafs

/-- `Date::calculate_total_days` (date.rs line 328). -/
def Date.calculate_total_days (d : Date) : Nat :=
  eafs.calculate_rata_die_from_gregorian_calendar d

/-- `Date::subtract` (date.rs lines 332-336): signed difference of the
Neri-Schneider rata-die counts. -/
def Date.subtract (a b : Date) : Int :=
  (Date.calculate_total_days a : Int) - (Date.calculate_total_days b : Int)

end Semana

namespace Semana

/-! ## The second Date implementation: crates/calendar/src/lib.rs

`lib.rs` defines its own `Date` struct (identical fields) with a
`days_from_epoch`-based `subtract`.  The modules `obtain.rs`, `render.rs`
and `ui.rs` of the crate import `super::Date`, i.e. THIS implementation.
We embed its two methods under the namespace `cal_lib`; the struct itself
is shared with the embedding above (same fields). -/

namespace cal_lib

/-- The literal array `month_days` from `Date::days_from_epoch`
(lib.rs line 244): `[1, 28, 31, 30, 31, 30, 31, 31, 30, 31, 30, 31]`. -/
def month_days : List Int := [1, 28, 31, 30, 31, 30, 31, 31, 30, 31, 30, 31]

/-- `Date::days_from_epoch` (lib.rs lines 232-258).  `years_since_the_start`
is a signed i32 and Rust `/` truncates toward zero, so `Int.tdiv` is used.
The `for m in 1..month` loop summing `month_days[m-1]` is the sum of the
first `month - 1` entries of the table. -/
def days_from_epoch (d : Date) : Int :=
  let years_since_the_start : Int := (d.year : Int) - 1970
  let total_days : Int :=
    years_since_the_start * 365 + years_since_the_start.tdiv 4 -
      years_since_the_start.tdiv 100 + years_since_the_start.tdiv 400
  let total_days : Int := total_days + ((month_days.take (d.month - 1)).sum)
  let total_days : Int := total_days + (d.day : Int)
  if 2 < d.month ∧ Date.is_leap_year d.year then total_days + 1 else total_days

/-- `Date::subtract` (lib.rs lines 260-264): the difference of the
`days_from_epoch` counts.  This is the subtraction the clash and geometry
code of the crate actually calls. -/
def subtract (a b : Date) : Int :=
  days_from_epoch a - days_from_epoch b

end cal_lib

/-! ## Time and minutes (lib.rs lines 281-382) -/

/-- `Time` (lib.rs line 282): `hour: u8` (0..23), `minute: u8` (0..59). -/
structure Time where
  hour : Nat
  minute : Nat
deriving DecidableEq, Repr

/-- `Minutes(u16)` is modelled as `Nat`; `Minutes::add` is `+` and
`Minutes::subtract` (a panicking u16 subtraction) is truncating `Nat`
subtraction, exact on all inputs where the source does not panic. -/
def Time.total_minutes (t : Time) : Nat :=
  t.hour * 60 + t.minute

/-- `Time::midnight` (lib.rs line 368). -/
def Time.midnight : Time := ⟨0, 0⟩

/-- `Time::last_minute` (lib.rs line 372). -/
def Time.last_minute : Time := ⟨23, 59⟩

/-- `Time::minutes_from_midnight` (lib.rs line 379). -/
def Time.minutes_from_midnight (t : Time) : Nat :=
  t.hour * 60 + t.minute

/-- `Event` (lib.rs lines 15-30).  `calendar_color: u32` is a `Nat`. -/
structure Event where
  title : String
  start_date : Date
  start_time : Time
  end_date : Date
  end_time : Time
  all_day : String
  calendar_color : Nat
deriving DecidableEq, Repr

/-! ## Clash/lane resolution (obtain.rs lines 78-355) -/

/-- `Clash` (obtain.rs lines 78-83).  The field `end` of the source is
renamed `clash_end` (`end` is a Lean keyword). -/
structure Clash where
  event_ends : List Nat
  lanes : List Nat
  clash_end : Nat
deriving DecidableEq, Repr

/-- `Clash::default()`. -/
def Clash.default : Clash := ⟨[], [], 0⟩

/-- `Clash::push` (obtain.rs lines 93-97). -/
def Clash.push (c : Clash) (event_end : Nat) (lane : Nat) : Clash :=
  ⟨c.event_ends ++ [event_end], c.lanes ++ [lane], max c.clash_end event_end⟩

/-- `Clash::flush` (obtain.rs lines 86-91): returns the flushed-out
`(lane, lane_count)` pairs and the cleared clash. -/
def Clash.flush (c : Clash) (lane_count : Nat) : Clash × List (Nat × Nat) :=
  (⟨[], [], 0⟩, c.lanes.map (fun lane => (lane, lane_count)))

/-- `find_free_lane` (obtain.rs lines 104-132): enumerate the group
members, keep those whose end is `≤ new_event_begin_minutes`, and fold.
Note the source's `else` branch keeps `acc_lane_index` but pairs it with
the CURRENT item's `end` (not `acc_end`); the embedding reproduces this.
The final unchecked index into `lanes` is modelled with `getD` (in the
program the index always comes from `enumerate` over the parallel
`event_ends` vector of equal length).  `find_free_lane_step` is the
closure passed to the source's `fold`. -/
def find_free_lane_step (new_event_begin_minutes : Nat)
    (acc : Option (Nat × Nat)) (item : Nat × Nat) : Option (Nat × Nat) :=
  match acc with
  | none => some item
  | some (acc_lane_index, acc_end) =>
    let acc_diff := new_event_begin_minutes - acc_end
    let diff := new_event_begin_minutes - item.2
    if diff ≤ acc_diff then some item
    else some (acc_lane_index, item.2)

def find_free_lane (new_event_begin_minutes : Nat) (clash : Clash) :
    Option Nat :=
  let lane_index : Option (Nat × Nat) :=
    ((clash.event_ends.enum).filter
        (fun p => p.2 ≤ new_event_begin_minutes)).foldl
      (find_free_lane_step new_event_begin_minutes) none
  lane_index.map (fun p => clash.lanes.getD p.1 0)

/-- `short_event_clash_condition` (obtain.rs lines 299-301). -/
def short_event_clash_condition (is_new_day : Bool) (event_start : Nat)
    (clash_end : Nat) : Bool :=
  decide (event_start < clash_end) && !is_new_day

/-- `long_event_clash_condition` (obtain.rs lines 303-305). -/
def long_event_clash_condition (_is_new_day : Bool) (event_start : Nat)
    (clash_end : Nat) : Bool :=
  decide (event_start < clash_end)

/-- The two `assert!((0..7).contains(..))` checks at the top of the event
loop of `find_clashes` (obtain.rs lines 317-320), on the day differences
computed with the lib.rs `subtract`. -/
def InWindow (start_date : Date) (e : Event) : Prop :=
  0 ≤ cal_lib.subtract e.start_date start_date ∧
    cal_lib.subtract e.start_date start_date < 7 ∧
    0 ≤ cal_lib.subtract e.end_date start_date ∧
    cal_lib.subtract e.end_date start_date < 7

instance (d : Date) (e : Event) : Decidable (InWindow d e) := by
  unfold InWindow; infer_instance

/-- The loop body and recursion of `find_clashes` (obtain.rs lines
307-355), one constructor per loop iteration; a failed window assertion
(a Rust panic) yields `none`.  State: current clash group, current date,
lane count and the output accumulator. -/
def find_clashes_go (condition : Bool → Nat → Nat → Bool) (start_date : Date) :
    List Event → Clash → Date → Nat → List (Nat × Nat) →
      Option (List (Nat × Nat))
  | [], last_clash, _, lane_count, ret =>
    some (ret ++ (last_clash.flush lane_count).2)
  | event :: rest, last_clash, current_date, lane_count, ret =>
    let start_day_diff : Int := cal_lib.subtract event.start_date start_date
    let end_day_diff : Int := cal_lib.subtract event.end_date start_date
    if 0 ≤ start_day_diff ∧ start_day_diff < 7 ∧
        0 ≤ end_day_diff ∧ end_day_diff < 7 then
      let start_date_days : Nat := start_day_diff.toNat * 1440
      let total_event_start : Nat :=
        event.start_time.total_minutes + start_date_days
      let is_new_day : Bool := decide (event.start_date ≠ current_date)
      let current_date' : Date :=
        if is_new_day then event.start_date else current_date
      let has_collision : Bool :=
        condition is_new_day total_event_start last_clash.clash_end
      let step : Nat × Nat × Bool :=
        if has_collision then
          match find_free_lane total_event_start last_clash with
          | none => (lane_count, lane_count + 1, false)
          | some lane => (lane, lane_count, false)
        else (0, 1, true)
      let flushed : Clash × List (Nat × Nat) :=
        if step.2.2 then last_clash.flush lane_count else (last_clash, [])
      let end_date_days : Nat := end_day_diff.toNat * 1440
      find_clashes_go condition start_date rest
        (flushed.1.push (event.end_time.total_minutes + end_date_days) step.1)
        current_date' step.2.1 (ret ++ flushed.2)
    else none

/-- `find_clashes` (obtain.rs lines 307-355). -/
def find_clashes (events : List Event) (start_date : Date)
    (condition : Bool → Nat → Nat → Bool) : Option (List (Nat × Nat)) :=
  find_clashes_go condition start_date events Clash.default start_date 0 []

end Semana
namespace Semana

/-! ## Event classification and segmentation (obtain.rs lines 357-462) -/

/-- `EventType` (obtain.rs lines 386-393). -/
inductive EventType where
  | Short
  | Long
  | CrossNight
deriving DecidableEq, Repr

/-- `determine_event_type` (obtain.rs lines 439-462); the
`assert!(event_duration_days >= 0)` is modelled by `none`.  The day
difference is computed with the lib.rs `subtract` (the `Date` in scope in
obtain.rs). -/
def determine_event_type (event : Event) (is_all_day : Bool) :
    Option EventType :=
  let event_duration_days : Int :=
    cal_lib.subtract event.end_date event.start_date
  if event_duration_days < 0 then none
  else if event_duration_days = 0 then
    if is_all_day then some EventType.Long else some EventType.Short
  else if event_duration_days = 1 then
    let event_duration_to_midnight : Nat :=
      1440 - event.start_time.hour * 60 - event.start_time.minute
    let event_duration_after_midnight : Nat :=
      event.end_time.hour * 60 + event.end_time.minute
    let event_duration : Nat :=
      event_duration_to_midnight + event_duration_after_midnight
    if 1440 ≤ event_duration then some EventType.Long
    else some EventType.CrossNight
  else some EventType.Long

/-- `crop_event` (obtain.rs lines 413-437); the `panic!` branch for a date
that is neither the start nor the end date is modelled by `none`. -/
def crop_event (date : Date) (event : Event) : Option Event :=
  if date = event.start_date then
    some ⟨event.title, event.start_date, event.start_time, event.start_date,
      Time.last_minute, event.all_day, event.calendar_color⟩
  else if date = event.end_date then
    some ⟨event.title, event.end_date, Time.midnight, event.end_date,
      event.end_time, event.all_day, event.calendar_color⟩
  else none

/-- `short_event_filter` (obtain.rs lines 357-384).  The outer `Option` is
a panic (unexpected `all-day` string, failed duration assertion, or a
`crop_event` contract violation); the inner `Option` is the source's
return value (`None` = event dropped, `Some((is_short, event))`). -/
def short_event_filter (event : Event) (date : Date) :
    Option (Option (Bool × Event)) :=
  let is_all_day? : Option Bool :=
    if event.all_day = "True" then some true
    else if event.all_day = "False" then some false
    else none
  match is_all_day? with
  | none => none
  | some is_all_day =>
    let event : Event :=
      if is_all_day then
        { event with start_time := Time.midnight, end_time := Time.last_minute }
      else event
    match determine_event_type event is_all_day with
    | none => none
    | some EventType.Short => some (some (true, event))
    | some EventType.Long =>
      if event.start_date = date then some (some (false, event)) else none
    | some EventType.CrossNight =>
      match crop_event date event with
      | none => none
      | some cropped_event => some (some (true, cropped_event))

/-! ## The fetch pipeline `obtain` (obtain.rs lines 46-217) -/

/-- `Events` (obtain.rs lines 229-232). -/
structure Events where
  long : List Event
  short : List Event
deriving DecidableEq, Repr

/-- `Error` (obtain.rs lines 48-54).  The `InvalidUnicode` constructor is
kept for completeness; the embedding models the fetched byte vector as a
`String`, so the UTF-8 re-validation of the source never fails here. -/
inductive Error (IoE PE : Type) where
  | Io (e : IoE)
  | InvalidUnicode
  | Parse (e : PE)
  | DurationIsTooBig
deriving DecidableEq, Repr

/-- `MAX_DURATION_DAYS` (obtain.rs line 56). -/
def MAX_DURATION_DAYS : Nat := 35

/-- `ObtainArguments` (obtain.rs lines 69-76); the field `from` of the
source is renamed `from_date` (`from` is a Lean keyword). -/
structure ObtainArguments where
  from_date : Date
  duration_days : Nat
  backend_bin_path : String

/-- `Date::iso_8601` (lib.rs lines 185-198): the ten bytes of the
`YYYY-MM-DD` rendering, by digit decomposition. -/
def iso_8601 (d : Date) : List Nat :=
  [d.year / 1000 + 48, d.year % 1000 / 100 + 48, d.year % 100 / 10 + 48,
   d.year % 10 + 48, 45, d.month / 10 + 48, d.month % 10 + 48, 45,
   d.day / 10 + 48, d.day % 10 + 48]

/-- `DateString::as_str` (lib.rs lines 177-181): the bytes as a string. -/
def date_string_as_str (bytes : List Nat) : String :=
  String.mk (bytes.map Char.ofNat)

/-- `DateStream::new(d).take(n)` (lib.rs lines 96-114): `n` consecutive
dates starting with `d` itself. -/
def date_stream_take (d : Date) : Nat → List Date
  | 0 => []
  | n + 1 => d :: date_stream_take (increment_date d) n

/-- The inner loop of `obtain` over one day's parsed events (obtain.rs
lines 202-213): `filter_map(short_event_filter)` followed by pushing onto
the `short`/`long` vectors; a panic anywhere propagates as `none`. -/
def process_events (date : Date) :
    List Event → Events → Option Events
  | [], acc => some acc
  | ev :: rest, acc =>
    match short_event_filter ev date with
    | none => none
    | some none => process_events date rest acc
    | some (some (true, e)) =>
      process_events date rest ⟨acc.long, acc.short ++ [e]⟩
    | some (some (false, e)) =>
      process_events date rest ⟨acc.long ++ [e], acc.short⟩

/-- The outer loop of `obtain` over the zipped (agenda line, date) pairs
(obtain.rs lines 199-214); a JSON parse failure aborts with
`Error::Parse`. -/
def process_agendas {IoE PE : Type} (jparse : String → Except PE (List Event)) :
    List (String × Date) → Events → Option (Except (Error IoE PE) Events)
  | [], acc => some (Except.ok acc)
  | (agenda_json, date) :: rest, acc =>
    match jparse agenda_json with
    | Except.error e => some (Except.error (Error.Parse e))
    | Except.ok agenda =>
      match process_events date agenda acc with
      | none => none
      | some acc' => process_agendas jparse rest acc'

/-- `obtain` (obtain.rs lines 147-217).  The `EventSource` capability is a
function from the constructed argument list to the captured output (bytes
modelled as `String`), the `JsonParser` capability a function from one
line to parsed events.  The duration guard precedes the source
invocation; panics in the per-event processing surface as `none`. -/
def obtain {IoE PE : Type} (agenda_source : List String → Except IoE String)
    (jparse : String → Except PE (List Event))
    (arguments : ObtainArguments) :
    Option (Except (Error IoE PE) Events) :=
  if arguments.duration_days > MAX_DURATION_DAYS then
    some (Except.error Error.DurationIsTooBig)
  else
    let args : List String :=
      [arguments.backend_bin_path, "list", "--json", "title", "--json",
       "start-date", "--json", "start-time", "--json", "end-date", "--json",
       "end-time", "--json", "all-day", "--json", "calendar-color",
       date_string_as_str (iso_8601 arguments.from_date),
       toString arguments.duration_days ++ "d"]
    match agenda_source args with
    | Except.error e => some (Except.error (Error.Io e))
    | Except.ok bytes =>
      let date_stream : List Date := date_stream_take arguments.from_date 7
      let agendas : List (String × Date) :=
        ((((bytes.splitOn "\n").take 7).takeWhile
          (fun p => ¬ p.isEmpty))).zip date_stream
      process_agendas jparse agendas ⟨[], []⟩

end Semana
namespace Semana

/-! ## Geometry (render.rs)

The source computes in `f32`.  The embedding uses exact rationals `ℚ`;
on the concrete grids of the spec's scenarios every claimed coordinate is
exactly representable and the claimed equalities hold under both
semantics.  `f32::NEG_INFINITY` (the fold sentinel of the render-side
`find_free_lane`) is modelled by `none`. -/

namespace render

/-- `Point` (render.rs lines 5-15). -/
structure Point where
  x : ℚ
  y : ℚ
deriving DecidableEq, Repr

/-- `Arguments` (render.rs lines 17-22). -/
structure Arguments where
  column_width : ℚ
  column_height : ℚ
  offset_x : ℚ
  offset_y : ℚ

/-- `Rectangle` (render.rs lines 144-149); the field `at` of the source is
renamed `at_` (`at` is a Lean keyword), and the borrowed title is a
`String`. -/
structure Rectangle where
  at_ : Point
  size : Point
  text : String
deriving DecidableEq, Repr

/-- `calculate_event_point_x` (render.rs lines 151-164); the negative
day-offset assertion is modelled by `none`.  The subtraction is the
lib.rs `subtract`. -/
def calculate_event_point_x (first_date event_date : Date)
    (column_width offset_x : ℚ) : Option ℚ :=
  let days : Int := cal_lib.subtract event_date first_date
  if 0 ≤ days then some ((days : ℚ) * column_width + offset_x) else none

/-- `create_point` (render.rs lines 166-182). -/
def create_point (first_date start_date : Date) (start_time : Time)
    (arguments : Arguments) : Option Point :=
  match calculate_event_point_x first_date start_date
      arguments.column_width arguments.offset_x with
  | none => none
  | some x =>
    some ⟨x, (start_time.minutes_from_midnight : ℚ) / 1440 *
      arguments.column_height + arguments.offset_y⟩

/-- `create_short_event_rectangle` (render.rs lines 229-252); the
`assert_eq!(start_date, end_date)` is modelled by `none`. -/
def create_short_event_rectangle (event : Event) (first_date : Date)
    (arguments : Arguments) : Option Rectangle :=
  if event.start_date = event.end_date then
    match create_point first_date event.start_date event.start_time arguments,
        create_point first_date event.end_date event.end_time arguments with
    | some start_point, some end_point =>
      some ⟨start_point,
        ⟨arguments.column_width, end_point.y - start_point.y⟩, event.title⟩
    | _, _ => none
  else none

/-- `Atasco` (render.rs lines 264-270); field `end` renamed
`atasco_end`. -/
structure Atasco where
  rectangles : List Rectangle
  lanes : List Nat
  atasco_end : ℚ
deriving DecidableEq, Repr

/-- `Atasco::default()`. -/
def Atasco.default : Atasco := ⟨[], [], 0⟩

/-- `Atasco::push` (render.rs lines 294-298). -/
def Atasco.push (a : Atasco) (rect : Rectangle) (lane : Nat) : Atasco :=
  ⟨a.rectangles ++ [rect], a.lanes ++ [lane],
    max (rect.at_.y + rect.size.y) a.atasco_end⟩

/-- `Atasco::flush` (render.rs lines 273-292): divide the cell into
`lane_count` lanes and emit the stored rectangles shifted into their
lanes. -/
def Atasco.flush (a : Atasco) (cell_width : ℚ) (lane_count : Nat) :
    Atasco × List Rectangle :=
  let lane_width : ℚ := cell_width / (lane_count : ℚ)
  (⟨[], [], 0⟩,
    (a.rectangles.zip a.lanes).map (fun p =>
      ⟨⟨p.1.at_.x + lane_width * (p.2 : ℚ), p.1.at_.y⟩,
        ⟨lane_width, p.1.size.y⟩, p.1.text⟩))

/-- The render-side `find_free_lane` (render.rs lines 303-332): fold over
the enumerated, filtered rectangle end ordinates with initial accumulator
`(0, -∞)`; returns the chosen lane and the accumulator end (`none` = the
`f32::NEG_INFINITY` sentinel, reported to the caller through
`is_infinite`). -/
def find_free_lane (new_event_begin : ℚ) (atasco : Atasco) :
    Nat × Option ℚ :=
  let folded : Nat × Option ℚ :=
    (((atasco.rectangles.map (fun rect => rect.at_.y + rect.size.y)).enum).filter
        (fun p => p.2 ≤ new_event_begin)).foldl
      (fun acc item =>
        match acc.2 with
        | none =>
          if 0 ≤ new_event_begin - item.2 then (item.1, some item.2) else acc
        | some acc_end =>
          let diff := new_event_begin - item.2
          let acc_diff := new_event_begin - acc_end
          if diff ≤ acc_diff ∧ 0 ≤ diff then (item.1, some item.2) else acc)
      (0, none)
  match folded.2 with
  | none => (0, none)
  | some e => (atasco.lanes.getD folded.1 0, some e)

/-- The loop of `short_event_rectangles` (render.rs lines 338-413). -/
def short_event_rectangles_go (first_date : Date) (arguments : Arguments) :
    List Event → Atasco → Nat → ℚ → List Rectangle →
      Option (List Rectangle)
  | [], last_atasco, lane_count, _absciss, ret =>
    some (ret ++ (last_atasco.flush arguments.column_width lane_count).2)
  | event :: rest, last_atasco, lane_count, absciss, ret =>
    match create_short_event_rectangle event first_date arguments with
    | none => none
    | some rect =>
      let atx : ℚ := rect.at_.x
      let aty : ℚ := rect.at_.y
      let is_new_absciss : Bool := decide (atx ≠ absciss)
      let absciss' : ℚ := if is_new_absciss then atx else absciss
      let has_collision : Bool :=
        decide (aty < last_atasco.atasco_end) && !is_new_absciss
      let step : Nat × Nat × Bool :=
        if has_collision then
          let fl := find_free_lane aty last_atasco
          match fl.2 with
          | none => (lane_count, lane_count + 1, false)
          | some _ => (fl.1, lane_count, false)
        else (0, 1, true)
      let flushed : Atasco × List Rectangle :=
        if step.2.2 then last_atasco.flush arguments.column_width lane_count
        else (last_atasco, [])
      short_event_rectangles_go first_date arguments rest
        (flushed.1.push rect step.1) step.2.1 absciss' (ret ++ flushed.2)

/-- `short_event_rectangles` (render.rs lines 338-413): asserts every
event is intra-day, then runs the lane-assignment loop on the computed
rectangles. -/
def short_event_rectangles (short_events : List Event) (first_date : Date)
    (arguments : Arguments) : Option (List Rectangle) :=
  if short_events.all (fun e => decide (e.start_date = e.end_date)) then
    short_event_rectangles_go first_date arguments short_events
      Atasco.default 0 0 []
  else none

end render

end Semana
namespace Semana

/-! ## Concrete inputs for the spec's scenarios -/

/-- A default `Event` used only as the out-of-range fallback of `List.getD`
in concrete statements. -/
def default_event : Event := ⟨"", ⟨1,1,1⟩, ⟨0,0⟩, ⟨1,1,1⟩, ⟨0,0⟩, "False", 0⟩

/-- Four same-day short events, nondecreasing start times (in minutes:
A [0,10), B [1,25), C [10,30), D [20,40)), all inside the week window of
2025-11-03. -/
def c5_events : List Event :=
  [⟨"A", ⟨2025,11,3⟩, ⟨0,0⟩, ⟨2025,11,3⟩, ⟨0,10⟩, "False", 0⟩,
   ⟨"B", ⟨2025,11,3⟩, ⟨0,1⟩, ⟨2025,11,3⟩, ⟨0,25⟩, "False", 0⟩,
   ⟨"C", ⟨2025,11,3⟩, ⟨0,10⟩, ⟨2025,11,3⟩, ⟨0,30⟩, "False", 0⟩,
   ⟨"D", ⟨2025,11,3⟩, ⟨0,20⟩, ⟨2025,11,3⟩, ⟨0,40⟩, "False", 0⟩]

/-- The cross-night event of the spec's scenario: 2025-10-27 23:00 to
2025-10-28 01:00. -/
def c7_event : Event :=
  ⟨"x", ⟨2025,10,27⟩, ⟨23,0⟩, ⟨2025,10,28⟩, ⟨1,0⟩, "False", 0⟩

end Semana

namespace Semana

/-! ## Correctness of the Neri-Schneider date arithmetic -/

lemma is_leap_year_iff (y : Nat) :
    Date.is_leap_year y = true ↔ (y % 4 = 0 ∧ (y % 100 ≠ 0 ∨ y % 400 = 0)) := by
  simp [Date.is_leap_year]


namespace eafs

/-- Master inversion lemma for `calculate_gregorian_date`: `Y` is the
shifted year, `M ∈ [3,14]` the shifted month (March..February), `D` the
zero-based day, and `n` the rata-die value produced by
`calculate_rata_die_from_gregorian_calendar` for that triple.  The
computational inverse recovers the triple. -/
theorem calculate_gregorian_date_master (Y M D n : Nat)
    (hn : n = 1461 * Y / 4 - Y / 100 + Y / 100 / 4 + (153 * M - 457) / 5 + D)
    (hM1 : 3 ≤ M) (hM2 : M ≤ 14) (hD : D ≤ 30)
    (h30 : M = 4 ∨ M = 6 ∨ M = 9 ∨ M = 11 → D ≤ 29)
    (hFeb : M = 14 → D ≤ 28)
    (hLeap : M = 14 → D = 28 →
      (Y + 1) % 4 = 0 ∧ ((Y + 1) % 100 ≠ 0 ∨ (Y + 1) % 400 = 0)) :
    calculate_gregorian_date n =
      ⟨(if 13 ≤ M then Y + 1 else Y), M - (if 13 ≤ M then 12 else 0), D + 1⟩ := by
  subst hn
  have hmst : 5 * ((153 * M - 457) / 5) + (153 * M - 457) % 5 = 153 * M - 457 :=
    Nat.div_add_mod _ 5
  set mst := (153 * M - 457) / 5 with hmst_def
  set N := 1461 * Y / 4 - Y / 100 + Y / 100 / 4 + mst + D with hN
  have h_n1 : 4 * N + 3 =
      146097 * (Y / 100) +
        (1461 * (Y % 100) + (4 * mst + 4 * D + 3) - Y % 4 - Y / 100 % 4) := by
    omega
  have h_B_lt : 1461 * (Y % 100) + (4 * mst + 4 * D + 3) - Y % 4 - Y / 100 % 4
      < 146097 := by
    omega
  have h_div1 : (4 * N + 3) / 146097 = Y / 100 := by omega
  have h_mod1 : (4 * N + 3) % 146097 =
      1461 * (Y % 100) + (4 * mst + 4 * D + 3) - Y % 4 - Y / 100 % 4 := by
    omega
  have h_n2 : 3 + 4 * ((4 * N + 3) % 146097 / 4) =
      1461 * (Y % 100) + (4 * mst + 4 * D + 3 - Y % 4) := by
    omega
  have h_E_lt : 4 * mst + 4 * D + 3 - Y % 4 < 1461 := by
    omega
  have h_div2 : (3 + 4 * ((4 * N + 3) % 146097 / 4)) / 1461 = Y % 100 := by
    omega
  have h_mod2 : (3 + 4 * ((4 * N + 3) % 146097 / 4)) % 1461 =
      4 * mst + 4 * D + 3 - Y % 4 := by
    omega
  have h_n3 : 461 + 5 * ((3 + 4 * ((4 * N + 3) % 146097 / 4)) % 1461 / 4) =
      461 + 5 * mst + 5 * D := by
    omega
  have hrho : 2 ≤ (153 * M - 457) % 5 ∨ D ≤ 29 := by
    interval_cases M <;> omega
  have h_div3 : (461 + 5 * mst + 5 * D) / 153 = M := by
    omega
  have h_mod3 : (461 + 5 * mst + 5 * D) % 153 / 5 = D := by
    omega
  simp only [calculate_gregorian_date]
  rw [h_n3, h_div3, h_mod3, h_div1, h_div2]
  clear h_n1 h_B_lt h_div1 h_mod1 h_n2 h_E_lt h_div2 h_mod2 h_n3 hrho h_div3
    h_mod3 hmst hLeap hFeb h30 hD
  by_cases h13 : 13 ≤ M
  · simp only [if_pos h13, Date.mk.injEq]
    refine ⟨?_, ?_, ?_⟩ <;> first | trivial | omega
  · simp only [if_neg h13, Date.mk.injEq]
    refine ⟨?_, ?_, ?_⟩ <;> first | trivial | omega

end eafs

/-- Round-trip of the two Neri-Schneider conversions on every valid date
(no upper year bound is needed). -/
theorem rata_die_roundtrip (d : Date) (hv : d.Valid) :
    eafs.calculate_gregorian_date
      (eafs.calculate_rata_die_from_gregorian_calendar d) = d := by
  obtain ⟨y, m, dd⟩ := d
  obtain ⟨h1, h2, h3, h4, h5⟩ := hv
  simp only at h1 h2 h3 h4 h5
  by_cases hm : m ≤ 2
  · interval_cases m
    · -- January
      have h5' : dd ≤ 31 := by simpa [Date.month_day_count] using h5
      rw [eafs.calculate_gregorian_date_master (y - 1) 13 (dd - 1) _
        (by norm_num [eafs.calculate_rata_die_from_gregorian_calendar]; try omega)
        (by omega) (by omega) (by omega) (by omega) (by omega) (by omega)]
      norm_num [Date.mk.injEq]
      try omega
    · -- February
      have h5' : dd ≤ if Date.is_leap_year y then 29 else 28 := by
        simpa [Date.month_day_count] using h5
      have hLeap : dd - 1 = 28 →
          ((y - 1) + 1) % 4 = 0 ∧
            (((y - 1) + 1) % 100 ≠ 0 ∨ ((y - 1) + 1) % 400 = 0) := by
        intro hdd
        rcases hly : Date.is_leap_year y
        · rw [hly] at h5'; simp at h5'; omega
        · rw [is_leap_year_iff] at hly; omega
      have h5'' : dd ≤ 29 := by
        rcases hly : Date.is_leap_year y <;> rw [hly] at h5' <;> simp at h5' <;>
          omega
      rw [eafs.calculate_gregorian_date_master (y - 1) 14 (dd - 1) _
        (by norm_num [eafs.calculate_rata_die_from_gregorian_calendar]; try omega)
        (by omega) (by omega) (by omega) (by omega) (by omega) (fun _ => hLeap)]
      norm_num [Date.mk.injEq]
      try omega
  · -- March .. December
    have hcap : dd ≤ 31 ∧ (m = 4 ∨ m = 6 ∨ m = 9 ∨ m = 11 → dd ≤ 30) := by
      unfold Date.month_day_count at h5
      constructor
      · split at h5
        · split at h5 <;> omega
        · split at h5 <;> omega
      · intro hmc
        have hne2 : ¬ (m = 2) := by omega
        rw [if_neg hne2, if_pos hmc] at h5
        omega
    have hcap31 : dd ≤ 31 := hcap.1
    rw [eafs.calculate_gregorian_date_master y m (dd - 1) _
      (by simp only [eafs.calculate_rata_die_from_gregorian_calendar,
        if_neg hm, Nat.mul_zero, Nat.add_zero, Nat.sub_zero]; try omega)
      (by omega) (by omega) (by omega)
      (fun hmc => by have h30' := hcap.2 hmc; omega)
      (fun h14 => absurd h14 (by omega))
      (fun h14 => absurd h14 (by omega))]
    have h13 : ¬ (13 ≤ m) := by omega
    rw [if_neg h13, if_neg h13]
    norm_num [Date.mk.injEq]
    try omega

/-- The rata-die count of the calendar successor of any valid date is one
more than the date's own count. -/
theorem rata_die_succ (d : Date) (hv : d.Valid) :
    eafs.calculate_rata_die_from_gregorian_calendar (increment_date d) =
      eafs.calculate_rata_die_from_gregorian_calendar d + 1 := by
  obtain ⟨y, m, dd⟩ := d
  obtain ⟨h1, h2, h3, h4, h5⟩ := hv
  simp only at h1 h2 h3 h4 h5
  have hlp := is_leap_year_iff y
  rcases hly : Date.is_leap_year y <;> rw [hly] at hlp <;>
    simp only [Bool.false_eq_true, false_iff, true_iff] at hlp <;>
    interval_cases m <;>
    simp only [Date.month_day_count, increment_date, hly] at h5 ⊢ <;>
    norm_num at h5 ⊢ <;>
    split_ifs <;> norm_num [eafs.calculate_rata_die_from_gregorian_calendar] <;>
      try omega
  all_goals
    have hcases : y % 4 = 1 ∨ y % 4 = 2 ∨ y % 4 = 3 ∨
        (y % 4 = 0 ∧ y % 100 = 0 ∧ y % 400 ≠ 0) := by omega
  all_goals rcases hcases with h | h | h | ⟨ha, hb, hc⟩ <;> omega

end Semana

namespace Semana

lemma find_free_lane_step_isSome (s : Nat) (acc : Option (Nat × Nat))
    (item : Nat × Nat) : (find_free_lane_step s acc item).isSome := by
  rcases acc with _ | ⟨i, e⟩
  · rfl
  · simp only [find_free_lane_step]
    split_ifs <;> rfl

lemma foldl_find_free_lane_step_ne_none (s : Nat) :
    ∀ (l : List (Nat × Nat)) (q : Nat × Nat),
      l.foldl (find_free_lane_step s) (some q) ≠ none := by
  intro l
  induction l with
  | nil => intro q h; exact Option.noConfusion h
  | cons a l ih =>
    intro q
    simp only [List.foldl_cons]
    obtain ⟨r, hr⟩ := Option.isSome_iff_exists.mp (find_free_lane_step_isSome s (some q) a)
    rw [hr]
    exact ih r

lemma foldl_find_free_lane_step_none_iff (s : Nat) (l : List (Nat × Nat)) :
    l.foldl (find_free_lane_step s) none = none ↔ l = [] := by
  cases l with
  | nil => simp
  | cons a l =>
    simp only [List.foldl_cons]
    constructor
    · intro h
      exact absurd h (by
        have : find_free_lane_step s none a = some a := rfl
        rw [this]
        exact foldl_find_free_lane_step_ne_none s l a)
    · intro h; exact List.noConfusion h

/-- `find_free_lane` reports no free lane exactly when no group member has
end-time at or before the new event's start. -/
theorem find_free_lane_none_iff (s : Nat) (c : Clash) :
    find_free_lane s c = none ↔ ∀ e ∈ c.event_ends, ¬ (e ≤ s) := by
  simp only [find_free_lane, Option.map_eq_none',
    foldl_find_free_lane_step_none_iff, List.filter_eq_nil_iff,
    List.forall_mem_enum, decide_eq_true_eq]
  constructor
  · intro h e he
    obtain ⟨i, hi, rfl⟩ := List.mem_iff_getElem.mp he
    exact h i hi
  · intro h i hi
    exact h _ (List.getElem_mem hi)

lemma foldl_find_free_lane_step_some (s : Nat) :
    ∀ (l : List (Nat × Nat)) (acc : Option (Nat × Nat)) (q : Nat × Nat),
      l.foldl (find_free_lane_step s) acc = some q →
        (∃ p ∈ l, p.1 = q.1) ∨ (∃ e0, acc = some (q.1, e0)) := by
  intro l
  induction l with
  | nil =>
    intro acc q h
    right
    simp only [List.foldl_nil] at h
    exact ⟨q.2, by rw [h]⟩
  | cons a l ih =>
    intro acc q h
    simp only [List.foldl_cons] at h
    rcases ih _ q h with hmem | ⟨e0, hacc⟩
    · obtain ⟨p, hp, hpq⟩ := hmem
      exact Or.inl ⟨p, List.mem_cons_of_mem _ hp, hpq⟩
    · rcases acc with _ | ⟨ai, ae⟩
      · -- step on none returns the item itself
        simp only [find_free_lane_step] at hacc
        left
        refine ⟨a, List.mem_cons_self _ _, ?_⟩
        have := congrArg (Option.map Prod.fst) hacc
        simp at this
        omega
      · simp only [find_free_lane_step] at hacc
        split_ifs at hacc with hcond
        · left
          refine ⟨a, List.mem_cons_self _ _, ?_⟩
          have := congrArg (Option.map Prod.fst) hacc
          simp at this
          omega
        · right
          have := congrArg (Option.map Prod.fst) hacc
          simp at this
          exact ⟨ae, by rw [this]⟩

/-- When `find_free_lane` returns a lane, it is the lane of some group
member that has already finished (its recorded end-time is `≤ s`). -/
theorem find_free_lane_some_mem (s : Nat) (c : Clash) (lane : Nat)
    (h : find_free_lane s c = some lane) :
    ∃ i, ∃ _ : i < c.event_ends.length,
      c.event_ends[i] ≤ s ∧ c.lanes.getD i 0 = lane := by
  simp only [find_free_lane, Option.map_eq_some'] at h
  obtain ⟨p, hfold, hlane⟩ := h
  rcases foldl_find_free_lane_step_some s _ none p hfold with hmem | ⟨e0, hacc⟩
  · obtain ⟨q, hq, hq1⟩ := hmem
    rw [List.mem_filter] at hq
    obtain ⟨hqe, hqle⟩ := hq
    obtain ⟨i, x⟩ := q
    rw [List.mk_mem_enum_iff_getElem?] at hqe
    simp only at hq1
    have hilen : i < c.event_ends.length := by
      by_contra hge
      rw [List.getElem?_eq_none (by omega)] at hqe
      exact Option.noConfusion hqe
    refine ⟨i, hilen, ?_, ?_⟩
    · have : c.event_ends[i] = x := by
        have := List.getElem?_eq_getElem hilen
        rw [this] at hqe
        exact Option.some.inj hqe
      rw [this]
      simpa using hqle
    · rw [hq1]; exact hlane
  · exact absurd hacc (by simp)

end Semana

namespace Semana

/-- Among equally-near finished members, the fold keeps the LATER one:
with two members of equal end-time `e ≤ s`, the second member's lane is
returned. -/
theorem find_free_lane_tie_last (s e l0 l1 cend : Nat) (h : e ≤ s) :
    find_free_lane s ⟨[e, e], [l0, l1], cend⟩ = some l1 := by
  simp [find_free_lane, find_free_lane_step, List.enum, List.enumFrom,
    List.filter, h]

/-- `find_clashes_go` succeeds exactly when every remaining event lies in
the 7-day window of the start date (per the lib.rs `subtract`); a single
out-of-window event makes the whole run panic (`none`), whatever the
accumulated state. -/
theorem find_clashes_go_isSome_iff (condition : Bool → Nat → Nat → Bool)
    (start_date : Date) :
    ∀ (l : List Event) (clash : Clash) (cur : Date) (lc : Nat)
      (ret : List (Nat × Nat)),
      (find_clashes_go condition start_date l clash cur lc ret).isSome ↔
        ∀ e ∈ l, InWindow start_date e := by
  intro l
  induction l with
  | nil => intro clash cur lc ret; simp [find_clashes_go]
  | cons ev rest ih =>
    intro clash cur lc ret
    rw [find_clashes_go]
    split_ifs with hwin
    · rw [ih]
      simp only [List.forall_mem_cons]
      have : InWindow start_date ev := by
        unfold InWindow
        exact hwin
      tauto
    · simp only [Option.isSome_none, Bool.false_eq_true, false_iff]
      intro hall
      exact hwin (hall ev (List.mem_cons_self _ _))

theorem find_clashes_isSome_iff (events : List Event) (start_date : Date)
    (condition : Bool → Nat → Nat → Bool) :
    (find_clashes events start_date condition).isSome ↔
      ∀ e ∈ events, InWindow start_date e :=
  find_clashes_go_isSome_iff condition start_date events Clash.default
    start_date 0 []

end Semana

namespace Semana

lemma process_agendas_ne_duration {IoE PE : Type}
    (jp : String → Except PE (List Event)) :
    ∀ (l : List (String × Date)) (acc : Events),
      @process_agendas IoE PE jp l acc ≠
        some (Except.error Error.DurationIsTooBig) := by
  intro l
  induction l with
  | nil => intro acc; simp [process_agendas]
  | cons p rest ih =>
    intro acc
    obtain ⟨line, date⟩ := p
    simp only [process_agendas]
    cases jp line with
    | error e => simp
    | ok agenda =>
      dsimp only
      cases process_events date agenda acc with
      | none => simp
      | some acc' =>
        dsimp only
        exact ih acc'

end Semana
namespace Semana

/-! ## The claims -/

/-- C1: for every valid `Date` with year in [1, 2100], converting to the
rata-die count with `calculate_rata_die_from_gregorian_calendar` and back
with `calculate_gregorian_date` yields the date again. -/
theorem claim_C1 (d : Date) (hv : d.Valid) (_hy : d.year ≤ 2100) :
    eafs.calculate_gregorian_date
      (eafs.calculate_rata_die_from_gregorian_calendar d) = d :=
  rata_die_roundtrip d hv

theorem claim_C1_witness :
    (⟨2100, 12, 31⟩ : Date).Valid ∧ (⟨2100, 12, 31⟩ : Date).year ≤ 2100 ∧
      eafs.calculate_gregorian_date
        (eafs.calculate_rata_die_from_gregorian_calendar ⟨2100, 12, 31⟩) =
        ⟨2100, 12, 31⟩ :=
  ⟨by decide, by decide, claim_C1 ⟨2100, 12, 31⟩ (by decide) (by decide)⟩

/-- C2: the date.rs Neri-Schneider `subtract` meets all three boundary
examples of the spec (7, 6, 6), but the lib.rs `days_from_epoch`-based
`subtract` — the one the clash/geometry components (obtain.rs, render.rs)
actually call — returns 35 and 37 on the two cross-year examples instead
of 6: the lib.rs month table `[1, 28, 31, ...]` and leap counting are
wrong, contradicting the spec and the date.rs unit tests
(`test_cross_leap_year`, `test_cross_year`). -/
theorem claim_C2 :
    Date.subtract ⟨2025, 12, 29⟩ ⟨2025, 12, 22⟩ = 7 ∧
    Date.subtract ⟨2029, 1, 4⟩ ⟨2028, 12, 29⟩ = 6 ∧
    Date.subtract ⟨2026, 1, 4⟩ ⟨2025, 12, 29⟩ = 6 ∧
    cal_lib.subtract ⟨2025, 12, 29⟩ ⟨2025, 12, 22⟩ = 7 ∧
    cal_lib.subtract ⟨2029, 1, 4⟩ ⟨2028, 12, 29⟩ = 35 ∧
    cal_lib.subtract ⟨2026, 1, 4⟩ ⟨2025, 12, 29⟩ = 37 := by
  refine ⟨by decide, by decide, by decide, by decide, by decide, by decide⟩

/-- C3: for every valid date (year in the supported range), the rata-die
count of its `increment_date` successor is the date's count plus one: the
day count is monotone and gap-free over consecutive dates. -/
theorem claim_C3 (d : Date) (hv : d.Valid) (_hy : d.year ≤ 2100) :
    eafs.calculate_rata_die_from_gregorian_calendar (increment_date d) =
      eafs.calculate_rata_die_from_gregorian_calendar d + 1 :=
  rata_die_succ d hv

theorem claim_C3_witness :
    (⟨2024, 2, 28⟩ : Date).Valid ∧ (⟨2024, 2, 28⟩ : Date).year ≤ 2100 ∧
      eafs.calculate_rata_die_from_gregorian_calendar
          (increment_date ⟨2024, 2, 28⟩) =
        eafs.calculate_rata_die_from_gregorian_calendar ⟨2024, 2, 28⟩ + 1 :=
  ⟨by decide, by decide, claim_C3 ⟨2024, 2, 28⟩ (by decide) (by decide)⟩

/-- C4: the four-event same-day scenario (first 10:00-11:00,
second 10:30-11:30, third 11:00-12:00, separated 12:00-13:00, week start
2025-11-03) yields lanes (0,2), (1,2), (0,2), (0,1) in input order. -/
theorem claim_C4 :
    find_clashes
      [⟨"first", ⟨2025,11,3⟩, ⟨10,0⟩, ⟨2025,11,3⟩, ⟨11,0⟩, "False", 0⟩,
       ⟨"second", ⟨2025,11,3⟩, ⟨10,30⟩, ⟨2025,11,3⟩, ⟨11,30⟩, "False", 0⟩,
       ⟨"third", ⟨2025,11,3⟩, ⟨11,0⟩, ⟨2025,11,3⟩, ⟨12,0⟩, "False", 0⟩,
       ⟨"separated", ⟨2025,11,3⟩, ⟨12,0⟩, ⟨2025,11,3⟩, ⟨13,0⟩, "False", 0⟩]
      ⟨2025,11,3⟩ short_event_clash_condition =
      some [(0, 2), (1, 2), (0, 2), (0, 1)] := by decide

/-- C5 counterexample: the four same-day short events of `c5_events` are
sorted by start time and inside the week window, yet `find_clashes`
assigns lane 0 to both C = [10,30) and D = [20,40), whose [start,end)
intervals overlap — the claimed non-overlap invariant fails (the group's
stale entry for A, which had already finished, lets D take C's lane). -/
theorem claim_C5_counterexample :
    c5_events.Pairwise
      (fun a b => a.start_time.total_minutes ≤ b.start_time.total_minutes) ∧
    (∀ e ∈ c5_events,
      e.start_date = ⟨2025,11,3⟩ ∧ e.end_date = ⟨2025,11,3⟩ ∧
        InWindow ⟨2025,11,3⟩ e) ∧
    find_clashes c5_events ⟨2025,11,3⟩ short_event_clash_condition =
      some [(0, 2), (1, 2), (0, 2), (0, 2)] ∧
    (c5_events.getD 2 default_event).start_time.total_minutes <
      (c5_events.getD 3 default_event).end_time.total_minutes ∧
    (c5_events.getD 3 default_event).start_time.total_minutes <
      (c5_events.getD 2 default_event).end_time.total_minutes := by decide

/-- C5 (amended): the pairwise same-lane non-overlap invariant does not
hold; what the algorithm guarantees is local: whenever the free-lane
search places a colliding event starting at minute `s` into an existing
lane, that lane is the recorded lane of some group member whose end-time
is at most `s` (a member that has already finished) — but the lane's
latest occupant need not have finished, so two same-lane events can
overlap. -/
theorem claim_C5 (s : Nat) (c : Clash) (lane : Nat)
    (h : find_free_lane s c = some lane) :
    ∃ i, ∃ _ : i < c.event_ends.length,
      c.event_ends[i] ≤ s ∧ c.lanes.getD i 0 = lane :=
  find_free_lane_some_mem s c lane h

theorem claim_C5_witness :
    find_free_lane 7 ⟨[5], [4], 9⟩ = some 4 ∧
      ∃ i, ∃ _ : i < (Clash.mk [5] [4] 9).event_ends.length,
        (Clash.mk [5] [4] 9).event_ends[i] ≤ 7 ∧
          (Clash.mk [5] [4] 9).lanes.getD i 0 = 4 :=
  ⟨by decide, claim_C5 7 ⟨[5], [4], 9⟩ 4 (by decide)⟩

/-- C6 counterexample: in the clash group with member ends [5, 5, 20] and
lanes [0, 1, 2], a new event at minute 10 collides (10 < 20) and the two
qualifying members (both end 5) have an equal difference 10 - 5; the
claim demands the first (lane 0), but `find_free_lane` returns lane 1 —
the later of the tied members wins. -/
theorem claim_C6_counterexample :
    short_event_clash_condition false 10 20 = true ∧
    find_free_lane 10 ⟨[5, 5, 20], [0, 1, 2], 20⟩ = some 1 ∧
    find_free_lane 10 ⟨[5, 5, 20], [0, 1, 2], 20⟩ ≠ some 0 := by decide

/-- C6 (amended): the search considers exactly the group members whose
end-time is ≤ s — it reports no free lane (and the caller allocates a new
one) precisely when no member has finished; among members with an equal
difference the LAST in iteration order wins, not the first (two-member
tie shown in general form below; moreover, because the fold replaces its
reference end with every inspected member's end, the selected member need
not be the nearest one). -/
theorem claim_C6 (s : Nat) (c : Clash) :
    (find_free_lane s c = none ↔ ∀ e ∈ c.event_ends, ¬ (e ≤ s)) ∧
    (∀ e l0 l1 cend, e ≤ s →
      find_free_lane s ⟨[e, e], [l0, l1], cend⟩ = some l1) :=
  ⟨find_free_lane_none_iff s c,
   fun e l0 l1 cend h => find_free_lane_tie_last s e l0 l1 cend h⟩

theorem claim_C6_witness :
    find_free_lane 10 ⟨[20], [7], 20⟩ = none ∧
      find_free_lane 10 ⟨[5, 5], [0, 9], 20⟩ = some 9 :=
  ⟨(claim_C6 10 ⟨[20], [7], 20⟩).1.mpr (by decide),
   (claim_C6 10 ⟨[5, 5], [0, 9], 20⟩).2 5 0 9 20 (by decide)⟩

/-- C7: the event 2025-10-27 23:00 .. 2025-10-28 01:00 is CrossNight;
cropped for its start day it becomes 23:00..23:59 of 2025-10-27, cropped
for its end day it becomes 00:00..01:00 of 2025-10-28, and cropping for
any other day panics (`none`). -/
theorem claim_C7 :
    determine_event_type c7_event false = some EventType.CrossNight ∧
    crop_event ⟨2025,10,27⟩ c7_event =
      some ⟨"x", ⟨2025,10,27⟩, ⟨23,0⟩, ⟨2025,10,27⟩, ⟨23,59⟩, "False", 0⟩ ∧
    crop_event ⟨2025,10,28⟩ c7_event =
      some ⟨"x", ⟨2025,10,28⟩, ⟨0,0⟩, ⟨2025,10,28⟩, ⟨1,0⟩, "False", 0⟩ ∧
    ∀ d : Date, d ≠ ⟨2025,10,27⟩ → d ≠ ⟨2025,10,28⟩ →
      crop_event d c7_event = none := by
  refine ⟨by decide, by decide, by decide, ?_⟩
  intro d h1 h2
  simp [crop_event, c7_event, h1, h2]

theorem claim_C7_witness :
    crop_event ⟨2025,10,29⟩ c7_event = none :=
  claim_C7.2.2.2 ⟨2025,10,29⟩ (by decide) (by decide)

/-- C8: a fetch request with duration_days > 35 fails with
`DurationIsTooBig` and the event-source capability is never consulted
(the result is independent of it); with duration_days ≤ 35 the duration
check never produces that error. -/
theorem claim_C8 {IoE PE : Type}
    (agenda_source agenda_source' : List String → Except IoE String)
    (jp : String → Except PE (List Event)) (arguments : ObtainArguments) :
    (35 < arguments.duration_days →
      obtain agenda_source jp arguments =
        some (Except.error Error.DurationIsTooBig) ∧
      obtain agenda_source jp arguments =
        obtain agenda_source' jp arguments) ∧
    (arguments.duration_days ≤ 35 →
      obtain agenda_source jp arguments ≠
        some (Except.error Error.DurationIsTooBig)) := by
  constructor
  · intro h
    have hc : arguments.duration_days > MAX_DURATION_DAYS := by
      simpa [MAX_DURATION_DAYS] using h
    constructor <;> simp [obtain, hc]
  · intro h
    have hc : ¬ (arguments.duration_days > MAX_DURATION_DAYS) := by
      simp only [MAX_DURATION_DAYS]; omega
    simp only [obtain, if_neg hc]
    cases agenda_source _ with
    | error e => simp
    | ok bytes => exact process_agendas_ne_duration jp _ _

theorem claim_C8_witness :
    @obtain Unit Unit (fun _ => Except.ok "")
        (fun _ => Except.ok []) ⟨⟨2025,10,27⟩, 36, "khal"⟩ =
      some (Except.error Error.DurationIsTooBig) ∧
    @obtain Unit Unit (fun _ => Except.ok "")
        (fun _ => Except.ok []) ⟨⟨2025,10,27⟩, 35, "khal"⟩ ≠
      some (Except.error Error.DurationIsTooBig) :=
  ⟨((claim_C8 (fun _ => Except.ok "") (fun _ => Except.ok "")
      (fun _ => Except.ok []) ⟨⟨2025,10,27⟩, 36, "khal"⟩).1 (by decide)).1,
   (claim_C8 (fun _ => Except.ok "") (fun _ => Except.ok "")
      (fun _ => Except.ok []) ⟨⟨2025,10,27⟩, 35, "khal"⟩).2 (by decide)⟩

/-- C9: a single short event 00:00-01:00 on the first grid day, with
column_width 125, column_height 600 and zero offsets, produces exactly
the rectangle at (0,0) of size (125, 25). -/
theorem claim_C9 :
    render.short_event_rectangles
      [⟨"arst", ⟨2025,9,29⟩, ⟨0,0⟩, ⟨2025,9,29⟩, ⟨1,0⟩, "False", 0⟩]
      ⟨2025,9,29⟩ ⟨125, 600, 0, 0⟩ =
      some [⟨⟨0, 0⟩, ⟨125, 25⟩, "arst"⟩] := by
  norm_num [render.short_event_rectangles, render.short_event_rectangles_go,
    render.create_short_event_rectangle, render.create_point,
    render.calculate_event_point_x, cal_lib.subtract, cal_lib.days_from_epoch,
    cal_lib.month_days, render.Atasco.flush, render.Atasco.push,
    render.Atasco.default, Time.minutes_from_midnight, render.find_free_lane]

/-- C10: `find_clashes` demands that every input event's start and end
dates lie within the 7-day window of the supplied start date (day
differences, computed with the lib.rs `subtract`, in 0..7); it succeeds
exactly on such inputs, and a single out-of-window event makes it panic
(`none`) instead of returning an error value or lane assignment. -/
theorem claim_C10 (events : List Event) (start_date : Date)
    (condition : Bool → Nat → Nat → Bool) :
    (find_clashes events start_date condition).isSome ↔
      ∀ e ∈ events, InWindow start_date e :=
  find_clashes_isSome_iff events start_date condition

theorem claim_C10_witness :
    find_clashes
      [⟨"far", ⟨2025,11,20⟩, ⟨10,0⟩, ⟨2025,11,20⟩, ⟨11,0⟩, "False", 0⟩]
      ⟨2025,11,3⟩ short_event_clash_condition = none ∧
    (find_clashes
      [⟨"near", ⟨2025,11,4⟩, ⟨10,0⟩, ⟨2025,11,4⟩, ⟨11,0⟩, "False", 0⟩]
      ⟨2025,11,3⟩ short_event_clash_condition).isSome := by
  constructor
  · rw [← Option.not_isSome_iff_eq_none,
      claim_C10 _ ⟨2025,11,3⟩ short_event_clash_condition]
    decide
  · rw [claim_C10 _ ⟨2025,11,3⟩ short_event_clash_condition]
    decide

end Semana
